import Mathlib

/-!
Verification of the attendance (check-in) core of the Kistr HR backend.

The model below is a shallow embedding of:
  * the `employee_checkins` table and its generated `HH:MM` columns
    (src/migrations/migrate.js, lines 180-217),
  * the stored procedures `create_checkin` (lines 466-489) and
    `update_checkin_status` (lines 491-521),
  * the HTTP handlers `POST /employee-checkins`, `PUT /employee-checkins/:id`
    and `GET /get-employee-checkin` (src/unnamed/part_002, lines 390-487).

Dates are modelled as day numbers (`Nat`), times of day as seconds since
midnight (`Nat`), timestamps for `updated_at` as abstract `Nat` ticks.
Minute counters are `Int`, matching the `INTEGER` columns.
-/

namespace Kistr

/-- One row of `employee_checkins` (migrate.js lines 180-198).  The three
`total_*_hours` columns are generated from the minute counters, so they are
modelled as functions further below, not as stored fields. -/
structure CheckinRecord where
  id : Nat
  user_id : Nat
  checkin_date : Nat
  checkin_time : Nat
  checkout_time : Option Nat
  status : String
  on_break : Bool
  total_working_minutes : Int
  total_break_minutes : Int
  total_daily_minutes : Int
  updated_at : Nat
  deriving DecidableEq

/-- The `employee_checkins` table content. -/
abbrev Store := List CheckinRecord

/-- PostgreSQL `LPAD(s, n, fill)` on the character list of `s`: pads on the
left up to length `n`, and truncates on the right when `s` is longer than
`n`. -/
def lpadC (cs : List Char) (n : Nat) (fill : Char) : List Char :=
  if n ≤ cs.length then cs.take n else List.replicate (n - cs.length) fill ++ cs

/-- Postgres cast of an integer value to text, `x::TEXT`. -/
def intToChars (i : Int) : List Char :=
  (toString i).data

/-- The generated-column expression (migrate.js lines 200-217):
`LPAD((m / 60)::TEXT, 2, '0') || ':' || LPAD((m % 60)::TEXT, 2, '0')`,
with `/` and `%` the PostgreSQL integer operators (truncation toward zero,
remainder taking the sign of the dividend). -/
def hhmmChars (m : Int) : List Char :=
  lpadC (intToChars (Int.tdiv m 60)) 2 '0' ++ ':' :: lpadC (intToChars (Int.tmod m 60)) 2 '0'

/-- The generated `HH:MM` display string for a minute counter. -/
def minutesToHHMM (m : Int) : String :=
  String.mk (hhmmChars m)

/-- Generated column `total_working_hours`. -/
def total_working_hours (r : CheckinRecord) : String :=
  minutesToHHMM r.total_working_minutes

/-- Generated column `total_break_hours`. -/
def total_break_hours (r : CheckinRecord) : String :=
  minutesToHHMM r.total_break_minutes

/-- Generated column `total_daily_hours`. -/
def total_daily_hours (r : CheckinRecord) : String :=
  minutesToHHMM r.total_daily_minutes

/-- Modelled from the spec: the repository has no parser for the `HH:MM`
strings; the spec's round-trip property reads the text before the colon as
the hour count, the text after it as the minute count, and recovers
`hours * 60 + minutes`.  Digit reading helper. -/
def digitVal? (c : Char) : Option Nat :=
  if c.isDigit then some (c.toNat - 48) else none

/-- Modelled from the spec: read a non-empty, all-digit character list as a
decimal number. -/
def digitsToNat? (cs : List Char) : Option Nat :=
  match cs with
  | [] => none
  | _ =>
    cs.foldl
      (fun acc c =>
        match acc, digitVal? c with
        | some a, some d => some (a * 10 + d)
        | _, _ => none)
      (some 0)

/-- Modelled from the spec: parse an `HH:MM` string back to a minute count,
`hours * 60 + minutes`. -/
def parseHHMM (s : String) : Option Nat :=
  let hs := s.data.takeWhile (fun c => !(c == ':'))
  let rest := s.data.dropWhile (fun c => !(c == ':'))
  match rest with
  | [] => none
  | _ :: ms =>
    match digitsToNat? hs, digitsToNat? ms with
    | some h, some m => some (h * 60 + m)
    | _, _ => none

/-- Stored procedure `create_checkin` (migrate.js lines 466-489): inserts a
row with status `checkin` at the current date and time; all other columns
take the schema defaults of lines 180-198 (`checkout_time NULL`,
`on_break FALSE`, the three minute counters `0`). -/
def create_checkin (uid : Nat) (today now newId ts : Nat) : CheckinRecord :=
  { id := newId
    user_id := uid
    checkin_date := today
    checkin_time := now
    checkout_time := none
    status := "checkin"
    on_break := false
    total_working_minutes := 0
    total_break_minutes := 0
    total_daily_minutes := 0
    updated_at := ts }

/-- Rounding of the PostgreSQL assignment `EXTRACT(EPOCH FROM ...) / 60`
(a numeric value) to the `INTEGER` column `total_daily_minutes`: numeric
to integer casts round half away from zero.  `d` is the difference in
seconds. -/
def epochDiv60ToInt (d : Int) : Int :=
  if 0 ≤ d then Int.ofNat ((d.toNat + 30) / 60)
  else - Int.ofNat (((-d).toNat + 30) / 60)

/-- The checkout branch of `update_checkin_status` (migrate.js lines
500-510): sets `checkout_time` to the current time, the status to
`checkout`, `on_break` to false, `total_daily_minutes` to
`EXTRACT(EPOCH FROM ((checkin_date + current_time) - (checkin_date +
checkin_time))) / 60`, and refreshes `updated_at`. -/
def applyCheckout (r : CheckinRecord) (ct ts : Nat) : CheckinRecord :=
  { r with
    checkout_time := some ct
    status := "checkout"
    on_break := false
    total_daily_minutes := epochDiv60ToInt ((ct : Int) - (r.checkin_time : Int))
    updated_at := ts }

/-- The `ELSE` branch of `update_checkin_status` (migrate.js lines 511-518):
sets `status` to the requested value, `on_break` to whether that value
equals `break`, and refreshes `updated_at`. -/
def applyStatus (r : CheckinRecord) (st : String) (ts : Nat) : CheckinRecord :=
  { r with
    status := st
    on_break := (st == "break")
    updated_at := ts }

/-- Effect of `update_checkin_status` on a single row: the `UPDATE ... WHERE
id = p_checkin_id` touches exactly the rows whose id matches, with no
condition on the current status. -/
def transitionRecord (i : Nat) (st : String) (ct ts : Nat) (r : CheckinRecord) : CheckinRecord :=
  if r.id == i then
    if st == "checkout" then applyCheckout r ct ts else applyStatus r st ts
  else r

/-- `update_checkin_status(p_checkin_id, p_new_status)` (migrate.js lines
491-521) over the whole table.  When no row has the given id the function
is a silent no-op (an SQL `UPDATE` matching zero rows raises no error). -/
def update_checkin_status (db : Store) (i : Nat) (st : String) (ct ts : Nat) : Store :=
  db.map (transitionRecord i st ct ts)

/-- Outcome of an HTTP handler: resulting table, HTTP status code, message. -/
abbrev HandlerResult := Store × Nat × String

/-- The per-type success message of the `switch` in `PUT
/employee-checkins/:id` (src/unnamed/part_002 lines 438-449). -/
def putMessage (ty : String) : String :=
  if ty == "break" then "Break started"
  else if ty == "checkin" then "Back to work"
  else "Checked out successfully"

/-- `PUT /employee-checkins/:id` (src/unnamed/part_002 lines 426-456):
reject a `type` outside `{break, checkin, checkout}` with 400 before any
store access; otherwise call `update_checkin_status` and answer 200 with a
per-type message. -/
def putEmployeeCheckin (db : Store) (i : Nat) (ty : String) (ct ts : Nat) : HandlerResult :=
  if !(["break", "checkin", "checkout"].contains ty) then
    (db, 400, "Invalid status type")
  else
    (update_checkin_status db i ty ct ts, 200, putMessage ty)

/-- Rows of a user on a given date, as selected by the duplicate check of
`POST /employee-checkins` (`WHERE user_id = $1 AND checkin_date = $2`). -/
def rowsFor (db : Store) (uid today : Nat) : List CheckinRecord :=
  db.filter (fun r => r.user_id == uid && r.checkin_date == today)

/-- `POST /employee-checkins` (src/unnamed/part_002 lines 390-423): if a row
for (user, today) already exists answer 400 "You have already checked in
today" without writing; otherwise insert via `create_checkin` and answer
201. -/
def postEmployeeCheckin (db : Store) (uid : Nat) (today now newId ts : Nat) : HandlerResult :=
  if (rowsFor db uid today).length > 0 then
    (db, 400, "You have already checked in today")
  else
    (db ++ [create_checkin uid today now newId ts], 201, "Check-in successful")

/-- The projection returned by `GET /get-employee-checkin`
(src/unnamed/part_002 lines 463-476). -/
structure CheckinView where
  checkin_date : Nat
  checkin_time : Nat
  checkout_time : Option Nat
  working_hours : String
  break_hours : String
  daily_hours : String
  status : String
  deriving DecidableEq

/-- Row projection of the history `SELECT`. -/
def toView (r : CheckinRecord) : CheckinView :=
  { checkin_date := r.checkin_date
    checkin_time := r.checkin_time
    checkout_time := r.checkout_time
    working_hours := total_working_hours r
    break_hours := total_break_hours r
    daily_hours := total_daily_hours r
    status := r.status }

/-- Insertion step of `ORDER BY checkin_date DESC`. -/
def insertDesc (x : CheckinRecord) : List CheckinRecord → List CheckinRecord
  | [] => [x]
  | y :: ys => if y.checkin_date ≤ x.checkin_date then x :: y :: ys else y :: insertDesc x ys

/-- `ORDER BY checkin_date DESC` as an insertion sort. -/
def sortDesc : List CheckinRecord → List CheckinRecord
  | [] => []
  | x :: xs => insertDesc x (sortDesc xs)

/-- `GET /get-employee-checkin` (src/unnamed/part_002 lines 459-487):
`SELECT ... WHERE user_id = $1 ORDER BY checkin_date DESC LIMIT 30`.
The handler only reads, so it returns the store unchanged beside the rows. -/
def getEmployeeCheckin (db : Store) (uid : Nat) : Store × List CheckinView :=
  (db, ((sortDesc (db.filter (fun r => r.user_id == uid))).take 30).map toView)

/-! ### Helper lemmas -/

/-- For hour or minute counts below 100 the two-character `LPAD` field reads
back to the very count it was produced from. -/
lemma digits_lpad_parse :
    ∀ h : Nat, h < 100 → digitsToNat? (lpadC (intToChars ((h : Nat) : Int)) 2 '0') = some h := by
  decide

/-- For counts below 100 the padded field contains no colon. -/
lemma lpad_no_colon :
    ∀ h : Nat, h < 100 →
      (lpadC (intToChars ((h : Nat) : Int)) 2 '0').all (fun c => !(c == ':')) = true := by
  decide

lemma takeWhile_until_colon (cs ds : List Char) (h : cs.all (fun c => !(c == ':')) = true) :
    (cs ++ ':' :: ds).takeWhile (fun c => !(c == ':')) = cs := by
  induction cs with
  | nil => simp [List.takeWhile_cons]
  | cons c cs ih =>
    simp only [List.all_cons, Bool.and_eq_true] at h
    simp only [List.cons_append, List.takeWhile_cons, h.1, if_true]
    rw [ih h.2]

lemma dropWhile_until_colon (cs ds : List Char) (h : cs.all (fun c => !(c == ':')) = true) :
    (cs ++ ':' :: ds).dropWhile (fun c => !(c == ':')) = ':' :: ds := by
  induction cs with
  | nil => simp [List.dropWhile_cons]
  | cons c cs ih =>
    simp only [List.all_cons, Bool.and_eq_true] at h
    simp only [List.cons_append, List.dropWhile_cons, h.1, if_true]
    exact ih h.2

lemma insertDesc_perm (x : CheckinRecord) (l : List CheckinRecord) :
    (insertDesc x l).Perm (x :: l) := by
  induction l with
  | nil => exact List.Perm.refl _
  | cons y ys ih =>
    rw [insertDesc]
    split
    · exact List.Perm.refl _
    · exact (ih.cons y).trans (List.Perm.swap x y ys)

lemma sortDesc_perm (l : List CheckinRecord) : (sortDesc l).Perm l := by
  induction l with
  | nil => exact List.Perm.refl _
  | cons x xs ih => exact (insertDesc_perm x (sortDesc xs)).trans (ih.cons x)

/-- The ordering produced by `ORDER BY checkin_date DESC`. -/
def DateDescSorted : List CheckinRecord → Prop :=
  List.Pairwise (fun a b => b.checkin_date ≤ a.checkin_date)

lemma insertDesc_sorted (x : CheckinRecord) (l : List CheckinRecord)
    (h : DateDescSorted l) : DateDescSorted (insertDesc x l) := by
  induction l with
  | nil => simp [insertDesc, DateDescSorted]
  | cons y ys ih =>
    rw [DateDescSorted, List.pairwise_cons] at h
    rw [insertDesc]
    split
    · rename_i hle
      rw [DateDescSorted, List.pairwise_cons]
      refine ⟨?_, List.pairwise_cons.mpr h⟩
      intro z hz
      rcases List.mem_cons.mp hz with hz | hz
      · exact hz ▸ hle
      · exact le_trans (h.1 z hz) hle
    · rename_i hgt
      rw [DateDescSorted, List.pairwise_cons]
      refine ⟨?_, ih h.2⟩
      intro z hz
      rcases List.mem_cons.mp ((insertDesc_perm x ys).mem_iff.mp hz) with hz | hz
      · exact hz ▸ le_of_not_le hgt
      · exact h.1 z hz

lemma sortDesc_sorted (l : List CheckinRecord) : DateDescSorted (sortDesc l) := by
  induction l with
  | nil => simp [sortDesc, DateDescSorted]
  | cons x xs ih => exact insertDesc_sorted x (sortDesc xs) ih

/-! ### Claim theorems -/

/-- C3: a transition request whose target status is not one of `checkin`,
`break`, `checkout` is rejected with a 400 validation error before any
store write, and the store is returned unchanged. -/
theorem invalid_type_rejected_before_write (db : Store) (i : Nat) (ty : String) (ct ts : Nat)
    (h : (["break", "checkin", "checkout"].contains ty) = false) :
    putEmployeeCheckin db i ty ct ts = (db, 400, "Invalid status type") := by
  rw [putEmployeeCheckin, h]
  rfl

/-- C3 witness: the concrete target `lunch` is rejected and the store is
untouched. -/
theorem invalid_type_rejected_before_write_witness :
    ((["break", "checkin", "checkout"].contains "lunch") = false) ∧
      putEmployeeCheckin [create_checkin 7 20000 32400 1 5] 1 "lunch" 62000 9
        = ([create_checkin 7 20000 32400 1 5], 400, "Invalid status type") :=
  ⟨by decide,
    invalid_type_rejected_before_write [create_checkin 7 20000 32400 1 5] 1 "lunch" 62000 9
      (by decide)⟩

/-- C6: a record created by the open-day operation starts in status
`checkin` with no checkout time, `on_break` false, all three minute
counters zero, and the given current date and time. -/
theorem open_day_initial_state (db : Store) (uid today now newId ts : Nat)
    (h : (rowsFor db uid today).length = 0) :
    (postEmployeeCheckin db uid today now newId ts).1
        = db ++ [create_checkin uid today now newId ts] ∧
      (create_checkin uid today now newId ts).status = "checkin" ∧
      (create_checkin uid today now newId ts).checkout_time = none ∧
      (create_checkin uid today now newId ts).on_break = false ∧
      (create_checkin uid today now newId ts).total_working_minutes = 0 ∧
      (create_checkin uid today now newId ts).total_break_minutes = 0 ∧
      (create_checkin uid today now newId ts).total_daily_minutes = 0 ∧
      (create_checkin uid today now newId ts).checkin_date = today ∧
      (create_checkin uid today now newId ts).checkin_time = now := by
  refine ⟨?_, rfl, rfl, rfl, rfl, rfl, rfl, rfl, rfl⟩
  rw [postEmployeeCheckin,
    if_neg (show ¬(rowsFor db uid today).length > 0 by omega)]

/-- C6 witness: opening a fresh day for employee 7 on an empty store. -/
theorem open_day_initial_state_witness :
    ((rowsFor ([] : Store) 7 20000).length = 0) ∧
      (postEmployeeCheckin [] 7 20000 32400 1 5).1 = [] ++ [create_checkin 7 20000 32400 1 5] :=
  ⟨by decide, (open_day_initial_state [] 7 20000 32400 1 5 (by decide)).1⟩

/-- C2: on a store holding at most one record for (employee, today), the
open-day operation leaves exactly one such record; when one already exists
it answers 400 with the duplicate-day message and does not write, and when
none exists it appends exactly one new record and answers 201. -/
theorem open_day_duplicate_conflict (db : Store) (uid today now newId ts : Nat)
    (hwf : (rowsFor db uid today).length ≤ 1) :
    (rowsFor (postEmployeeCheckin db uid today now newId ts).1 uid today).length = 1 ∧
      (0 < (rowsFor db uid today).length →
        postEmployeeCheckin db uid today now newId ts
          = (db, 400, "You have already checked in today")) ∧
      ((rowsFor db uid today).length = 0 →
        (postEmployeeCheckin db uid today now newId ts).2.1 = 201 ∧
          (postEmployeeCheckin db uid today now newId ts).1
            = db ++ [create_checkin uid today now newId ts]) := by
  by_cases h0 : (rowsFor db uid today).length = 0
  · have hpost : postEmployeeCheckin db uid today now newId ts
        = (db ++ [create_checkin uid today now newId ts], 201, "Check-in successful") := by
      rw [postEmployeeCheckin,
        if_neg (show ¬(rowsFor db uid today).length > 0 by omega)]
    refine ⟨?_, fun hc => absurd h0 (by omega), fun _ => ⟨by rw [hpost], by rw [hpost]⟩⟩
    rw [hpost]
    have hnil : rowsFor db uid today = [] := List.length_eq_zero.mp h0
    rw [rowsFor] at hnil ⊢
    rw [List.filter_append, hnil]
    simp [create_checkin]
  · have hpos : (rowsFor db uid today).length > 0 := by omega
    have hpost : postEmployeeCheckin db uid today now newId ts
        = (db, 400, "You have already checked in today") := by
      rw [postEmployeeCheckin, if_pos hpos]
    refine ⟨?_, fun _ => hpost, fun hc => absurd hc h0⟩
    rw [hpost]
    show (rowsFor db uid today).length = 1
    omega

/-- C2 witness: a second open-day call for employee 7 on the same date is
the duplicate-day conflict and the store keeps exactly one matching row. -/
theorem open_day_duplicate_conflict_witness :
    ((rowsFor [create_checkin 7 20000 32400 1 5] 7 20000).length ≤ 1) ∧
      (0 < (rowsFor [create_checkin 7 20000 32400 1 5] 7 20000).length) ∧
      postEmployeeCheckin [create_checkin 7 20000 32400 1 5] 7 20000 33000 2 6
        = ([create_checkin 7 20000 32400 1 5], 400, "You have already checked in today") :=
  ⟨by decide, by decide,
    (open_day_duplicate_conflict [create_checkin 7 20000 32400 1 5] 7 20000 33000 2 6
      (by decide)).2.1 (by decide)⟩

/-- C1: contrary to the claim, the code does not treat `checkout` as a
terminal state and does not report an error for a missing record: a
transition applied to an already checked-out record succeeds (HTTP 200)
and overwrites its status, and a transition naming a nonexistent record id
also answers 200 while touching nothing.  This theorem evaluates the code
at those failing inputs. -/
theorem transition_after_checkout_succeeds :
    (applyCheckout (create_checkin 7 20000 32400 1 5) 61200 6).status = "checkout" ∧
      (putEmployeeCheckin [applyCheckout (create_checkin 7 20000 32400 1 5) 61200 6]
          1 "checkin" 62000 7).2.1 = 200 ∧
      (putEmployeeCheckin [applyCheckout (create_checkin 7 20000 32400 1 5) 61200 6]
          1 "checkin" 62000 7).2.2 = "Back to work" ∧
      ((putEmployeeCheckin [applyCheckout (create_checkin 7 20000 32400 1 5) 61200 6]
          1 "checkin" 62000 7).1.map CheckinRecord.status) = ["checkin"] ∧
      (putEmployeeCheckin ([] : Store) 5 "checkout" 62000 7).2.1 = 200 ∧
      (putEmployeeCheckin ([] : Store) 5 "checkout" 62000 7).1 = [] := by
  refine ⟨rfl, rfl, rfl, by decide, rfl, rfl⟩

/-- C8: a `checkin` (resume) or `break` transition on a row changes only
its status, `on_break` and `updated_at`; the date, the check-in and
check-out times and the three minute counters are untouched, and rows with
a different id are returned verbatim. -/
theorem resume_break_frame (i : Nat) (ty : String) (ct ts : Nat) (r : CheckinRecord)
    (h : ty = "checkin" ∨ ty = "break") :
    (transitionRecord i ty ct ts r).checkin_date = r.checkin_date ∧
      (transitionRecord i ty ct ts r).checkin_time = r.checkin_time ∧
      (transitionRecord i ty ct ts r).checkout_time = r.checkout_time ∧
      (transitionRecord i ty ct ts r).total_working_minutes = r.total_working_minutes ∧
      (transitionRecord i ty ct ts r).total_break_minutes = r.total_break_minutes ∧
      (transitionRecord i ty ct ts r).total_daily_minutes = r.total_daily_minutes ∧
      (transitionRecord i ty ct ts r).id = r.id ∧
      (transitionRecord i ty ct ts r).user_id = r.user_id ∧
      (r.id = i →
        (transitionRecord i ty ct ts r).status = ty ∧
          (transitionRecord i ty ct ts r).on_break = (ty == "break") ∧
          (transitionRecord i ty ct ts r).updated_at = ts) ∧
      (r.id ≠ i → transitionRecord i ty ct ts r = r) := by
  have hne : (ty == "checkout") = false := by
    rcases h with h | h <;> rw [h] <;> rfl
  rw [transitionRecord, hne]
  by_cases hid : r.id = i
  · rw [if_pos (show (r.id == i) = true by simp [hid]), if_neg (by simp)]
    exact ⟨rfl, rfl, rfl, rfl, rfl, rfl, rfl, rfl, fun _ => ⟨rfl, rfl, rfl⟩,
      fun hc => absurd hid hc⟩
  · rw [if_neg (by simpa using hid)]
    exact ⟨rfl, rfl, rfl, rfl, rfl, rfl, rfl, rfl, fun hc => absurd hc hid,
      fun _ => rfl⟩

/-- C8 witness: starting a break on the freshly created record 1 keeps the
check-out time and the minute counters untouched. -/
theorem resume_break_frame_witness :
    ("break" = "checkin" ∨ "break" = "break") ∧
      (transitionRecord 1 "break" 62000 9 (create_checkin 7 20000 32400 1 5)).checkout_time
          = (create_checkin 7 20000 32400 1 5).checkout_time ∧
      (transitionRecord 1 "break" 62000 9 (create_checkin 7 20000 32400 1 5)).total_daily_minutes
          = (create_checkin 7 20000 32400 1 5).total_daily_minutes :=
  ⟨Or.inr rfl,
    (resume_break_frame 1 "break" 62000 9 (create_checkin 7 20000 32400 1 5)
      (Or.inr rfl)).2.2.1,
    (resume_break_frame 1 "break" 62000 9 (create_checkin 7 20000 32400 1 5)
      (Or.inr rfl)).2.2.2.2.2.1⟩

/-- C4 counterexample: `total_daily_minutes` is not the whole-minute
difference in general.  A check-in at 09:00:00 with a check-out at
09:01:30 (a 90-second stay) has whole-minute difference 1, but the
assignment of `EXTRACT(EPOCH FROM ...) / 60` (a numeric value) to the
`INTEGER` column rounds to the nearest minute and stores 2. -/
theorem checkout_not_whole_minute_difference :
    (applyCheckout (create_checkin 7 20000 32400 1 5) 32490 9).total_daily_minutes = 2 ∧
      ((32490 - 32400 : Nat) / 60 : Nat) = 1 ∧
      ((2 : Int) ≠ (1 : Int)) := by
  refine ⟨by decide, by decide, by decide⟩

/-- C4 amended: on a non-terminal record, the checkout branch sets the
status to `checkout`, stores the given check-out time, clears `on_break`,
and writes the seconds difference between check-out and check-in time
divided by 60 and rounded to the nearest minute into
`total_daily_minutes`; whenever the difference is an exact number of
minutes this is the whole-minute difference; in particular a 09:00:00
check-in with a 17:30:00 check-out yields 510 minutes displayed as
08:30. -/
theorem checkout_rounds_daily_minutes (r : CheckinRecord) (ct ts : Nat)
    (hterm : r.status ≠ "checkout") (hle : r.checkin_time ≤ ct) :
    (applyCheckout r ct ts).status = "checkout" ∧
      (applyCheckout r ct ts).checkout_time = some ct ∧
      (applyCheckout r ct ts).on_break = false ∧
      (applyCheckout r ct ts).total_daily_minutes
          = (((ct - r.checkin_time + 30) / 60 : Nat) : Int) ∧
      ((ct - r.checkin_time) % 60 = 0 →
        (applyCheckout r ct ts).total_daily_minutes
          = (((ct - r.checkin_time) / 60 : Nat) : Int)) ∧
      (r.checkin_time = 32400 → ct = 63000 →
        (applyCheckout r ct ts).total_daily_minutes = 510 ∧
          total_daily_hours (applyCheckout r ct ts) = "08:30") := by
  have hmain : (applyCheckout r ct ts).total_daily_minutes
      = (((ct - r.checkin_time + 30) / 60 : Nat) : Int) := by
    show epochDiv60ToInt ((ct : Int) - (r.checkin_time : Int))
        = (((ct - r.checkin_time + 30) / 60 : Nat) : Int)
    have hcast : (ct : Int) - (r.checkin_time : Int) = ((ct - r.checkin_time : Nat) : Int) := by
      omega
    rw [hcast, epochDiv60ToInt, if_pos (by omega)]
    rfl
  refine ⟨rfl, rfl, rfl, hmain, ?_, ?_⟩
  · intro hdvd
    rw [hmain]
    congr 1
    obtain ⟨k, hk⟩ : ∃ k, ct - r.checkin_time = 60 * k :=
      ⟨(ct - r.checkin_time) / 60, by omega⟩
    rw [hk, Nat.mul_add_div (by omega), Nat.mul_div_cancel_left k (by omega)]
    omega
  · intro h1 h2
    subst h2
    have h510 : (applyCheckout r 63000 ts).total_daily_minutes = 510 := by
      rw [hmain, h1]
      decide
    refine ⟨h510, ?_⟩
    show minutesToHHMM (applyCheckout r 63000 ts).total_daily_minutes = "08:30"
    rw [h510]
    decide

/-- C4 amended witness: the concrete 09:00:00 check-in, 17:30:00 check-out
scenario (32400 and 63000 seconds since midnight). -/
theorem checkout_rounds_daily_minutes_witness :
    ((create_checkin 7 20000 32400 1 5).status ≠ "checkout") ∧
      total_daily_hours (applyCheckout (create_checkin 7 20000 32400 1 5) 63000 9) = "08:30" :=
  ⟨by decide,
    ((checkout_rounds_daily_minutes (create_checkin 7 20000 32400 1 5) 63000 9
      (by decide) (by decide)).2.2.2.2.2 rfl rfl).2⟩

/-- The stores reachable through the exposed operations: open-day
(`POST /employee-checkins`) and apply-transition
(`PUT /employee-checkins/:id`), starting from an empty table. -/
inductive Reachable : Store → Prop where
  | init : Reachable []
  | openDay (db : Store) (uid today now newId ts : Nat) :
      Reachable db → Reachable (postEmployeeCheckin db uid today now newId ts).1
  | transition (db : Store) (i : Nat) (ty : String) (ct ts : Nat) :
      Reachable db → Reachable (putEmployeeCheckin db i ty ct ts).1

/-- C7: every record of every reachable store satisfies the invariant that
`on_break` holds exactly when the status is `break`. -/
theorem on_break_iff_status_break (db : Store) (h : Reachable db) :
    ∀ r ∈ db, r.on_break = (r.status == "break") := by
  induction h with
  | init => intro r hr; cases hr
  | openDay db uid today now newId ts hdb ih =>
    intro r hr
    rw [postEmployeeCheckin] at hr
    by_cases hc : (rowsFor db uid today).length > 0
    · rw [if_pos hc] at hr
      exact ih r hr
    · rw [if_neg hc] at hr
      rcases List.mem_append.mp hr with h1 | h1
      · exact ih r h1
      · rcases List.mem_singleton.mp h1 with rfl
        rfl
  | transition db i ty ct ts hdb ih =>
    intro r hr
    rw [putEmployeeCheckin] at hr
    by_cases hc : (!(["break", "checkin", "checkout"].contains ty)) = true
    · rw [if_pos hc] at hr
      exact ih r hr
    · rw [if_neg hc] at hr
      obtain ⟨r0, hr0, rfl⟩ := List.mem_map.mp hr
      rw [transitionRecord]
      by_cases hid : (r0.id == i) = true
      · rw [if_pos hid]
        by_cases hco : (ty == "checkout") = true
        · rw [if_pos hco]
          rfl
        · rw [if_neg hco]
          rfl
      · rw [if_neg hid]
        exact ih r0 hr0

/-- C7 witness: the invariant instantiated at the single record of the
store reached by opening a day and then starting a break. -/
theorem on_break_iff_status_break_witness :
    (transitionRecord 1 "break" 40000 6 (create_checkin 7 20000 32400 1 5)).on_break
      = ((transitionRecord 1 "break" 40000 6 (create_checkin 7 20000 32400 1 5)).status
          == "break") :=
  on_break_iff_status_break _
    (Reachable.transition _ 1 "break" 40000 6 (Reachable.openDay [] 7 20000 32400 1 5 Reachable.init))
    (transitionRecord 1 "break" 40000 6 (create_checkin 7 20000 32400 1 5)) (by decide)

/-- C5 counterexample: the round trip fails inside the claimed range
`[0, 10000)`.  At `m = 6000` the hour field is `100`, which `LPAD(_, 2, _)`
truncates to `10`, so the string is `10:00` and parses back to `600`, not
`6000`. -/
theorem format_parse_fails_at_6000 :
    minutesToHHMM 6000 = "10:00" ∧
      parseHHMM (minutesToHHMM 6000) = some 600 ∧
      (600 : Nat) ≠ 6000 := by
  refine ⟨by decide, by decide, by decide⟩

/-- C5 amended: for every minute count below 6000 (hour field at most 99,
the capacity of the two-character `LPAD` field), formatting as the
generated columns do and parsing the `HH:MM` string back recovers the
count.  All per-day counters are below 1440, so all are in range. -/
theorem format_parse_roundtrip (m : Nat) (hm : m < 6000) :
    parseHHMM (minutesToHHMM ((m : Nat) : Int)) = some m := by
  have hdivlt : m / 60 < 100 := by omega
  have hmodlt : m % 60 < 100 := by omega
  have h1 : Int.tdiv ((m : Nat) : Int) 60 = ((m / 60 : Nat) : Int) := rfl
  have h2 : Int.tmod ((m : Nat) : Int) 60 = ((m % 60 : Nat) : Int) := rfl
  have hchars : hhmmChars ((m : Nat) : Int)
      = lpadC (intToChars ((m / 60 : Nat) : Int)) 2 '0'
          ++ ':' :: lpadC (intToChars ((m % 60 : Nat) : Int)) 2 '0' := by
    rw [hhmmChars, h1, h2]
  have hdata : (minutesToHHMM ((m : Nat) : Int)).data
      = lpadC (intToChars ((m / 60 : Nat) : Int)) 2 '0'
          ++ ':' :: lpadC (intToChars ((m % 60 : Nat) : Int)) 2 '0' := by
    rw [minutesToHHMM]
    exact hchars
  have hnc : (lpadC (intToChars ((m / 60 : Nat) : Int)) 2 '0').all (fun c => !(c == ':'))
      = true := lpad_no_colon (m / 60) hdivlt
  rw [parseHHMM, hdata,
    takeWhile_until_colon _ _ hnc, dropWhile_until_colon _ _ hnc]
  simp only [digits_lpad_parse (m / 60) hdivlt, digits_lpad_parse (m % 60) hmodlt]
  have hsum : m / 60 * 60 + m % 60 = m := by omega
  rw [hsum]

/-- C5 amended witness: `m = 510` formats to `08:30` and parses back. -/
theorem format_parse_roundtrip_witness :
    (510 : Nat) < 6000 ∧ parseHHMM (minutesToHHMM ((510 : Nat) : Int)) = some 510 :=
  ⟨by decide, format_parse_roundtrip 510 (by decide)⟩

/-- C9: the current-user history read returns the store unchanged, every
returned row is the projection of one of that employee's stored records,
the rows come ordered by check-in date descending, and an employee without
records gets the empty list rather than an error. -/
theorem history_read_spec (db : Store) (uid : Nat) :
    (getEmployeeCheckin db uid).1 = db ∧
      (∀ v ∈ (getEmployeeCheckin db uid).2,
        ∃ r, r ∈ db ∧ r.user_id = uid ∧ v = toView r) ∧
      List.Pairwise (fun a b : CheckinView => b.checkin_date ≤ a.checkin_date)
        (getEmployeeCheckin db uid).2 ∧
      (db.filter (fun r => r.user_id == uid) = [] → (getEmployeeCheckin db uid).2 = []) := by
  refine ⟨rfl, ?_, ?_, ?_⟩
  · intro v hv
    obtain ⟨a, ha, rfl⟩ := List.mem_map.mp hv
    have ha2 : a ∈ sortDesc (db.filter (fun r => r.user_id == uid)) :=
      (List.take_sublist 30 _).subset ha
    have ha3 : a ∈ db.filter (fun r => r.user_id == uid) :=
      (sortDesc_perm _).mem_iff.mp ha2
    obtain ⟨hmem, hbeq⟩ := List.mem_filter.mp ha3
    exact ⟨a, hmem, by simpa using hbeq, rfl⟩
  · show List.Pairwise (fun a b : CheckinView => b.checkin_date ≤ a.checkin_date)
      (((sortDesc (db.filter (fun r => r.user_id == uid))).take 30).map toView)
    rw [List.pairwise_map]
    have hs : DateDescSorted ((sortDesc (db.filter (fun r => r.user_id == uid))).take 30) :=
      List.Pairwise.sublist (List.take_sublist 30 _) (sortDesc_sorted _)
    exact hs.imp (fun hab => hab)
  · intro hnil
    show ((sortDesc (db.filter (fun r => r.user_id == uid))).take 30).map toView = []
    rw [hnil]
    rfl

/-- C9 witness: a two-record store for employee 7; the views keep the store
unchanged and are date-descending, and a user without records gets `[]`. -/
theorem history_read_spec_witness :
    (getEmployeeCheckin [create_checkin 7 20000 32400 1 5, create_checkin 7 20001 30000 2 6] 7).1
        = [create_checkin 7 20000 32400 1 5, create_checkin 7 20001 30000 2 6] ∧
      List.Pairwise (fun a b : CheckinView => b.checkin_date ≤ a.checkin_date)
        (getEmployeeCheckin
          [create_checkin 7 20000 32400 1 5, create_checkin 7 20001 30000 2 6] 7).2 ∧
      (getEmployeeCheckin [create_checkin 7 20000 32400 1 5] 9).2 = [] :=
  ⟨(history_read_spec [create_checkin 7 20000 32400 1 5, create_checkin 7 20001 30000 2 6] 7).1,
    (history_read_spec [create_checkin 7 20000 32400 1 5, create_checkin 7 20001 30000 2 6]
      7).2.2.1,
    (history_read_spec [create_checkin 7 20000 32400 1 5] 9).2.2.2 (by decide)⟩

/-- C10: the current-user history returns at most 30 rows; the sorted
employee records are a permutation of all of them, with more than 30
records exactly 30 rows are returned, and every record beyond the first 30
of the date-descending order (the silently omitted ones) has a check-in
date no later than any returned row. -/
theorem history_read_limit (db : Store) (uid : Nat) :
    (getEmployeeCheckin db uid).2.length ≤ 30 ∧
      (sortDesc (db.filter (fun r => r.user_id == uid))).Perm
        (db.filter (fun r => r.user_id == uid)) ∧
      (30 < (db.filter (fun r => r.user_id == uid)).length →
        (getEmployeeCheckin db uid).2.length = 30) ∧
      (∀ r ∈ (sortDesc (db.filter (fun r => r.user_id == uid))).drop 30,
        ∀ v ∈ (getEmployeeCheckin db uid).2, r.checkin_date ≤ v.checkin_date) := by
  have hlen : (getEmployeeCheckin db uid).2.length
      = min 30 (sortDesc (db.filter (fun r => r.user_id == uid))).length := by
    show (((sortDesc (db.filter (fun r => r.user_id == uid))).take 30).map toView).length
        = min 30 (sortDesc (db.filter (fun r => r.user_id == uid))).length
    rw [List.length_map, List.length_take]
  have hplen : (sortDesc (db.filter (fun r => r.user_id == uid))).length
      = (db.filter (fun r => r.user_id == uid)).length :=
    (sortDesc_perm _).length_eq
  refine ⟨by omega, sortDesc_perm _, fun hgt => by omega, ?_⟩
  intro r hr v hv
  obtain ⟨a, ha, rfl⟩ := List.mem_map.mp hv
  have hsorted : DateDescSorted (sortDesc (db.filter (fun r => r.user_id == uid))) :=
    sortDesc_sorted _
  have hsplit := hsorted
  rw [DateDescSorted,
    ← List.take_append_drop 30 (sortDesc (db.filter (fun r => r.user_id == uid))),
    List.pairwise_append] at hsplit
  exact hsplit.2.2 a ha r hr

/-- C10 witness: at most 30 rows on a concrete two-record store, and the
drop-beyond-30 bound instantiated there. -/
theorem history_read_limit_witness :
    (getEmployeeCheckin [create_checkin 7 20000 32400 1 5, create_checkin 7 20001 30000 2 6]
        7).2.length ≤ 30 ∧
      (sortDesc ([create_checkin 7 20000 32400 1 5,
          create_checkin 7 20001 30000 2 6].filter (fun r => r.user_id == 7))).Perm
        ([create_checkin 7 20000 32400 1 5,
          create_checkin 7 20001 30000 2 6].filter (fun r => r.user_id == 7)) :=
  ⟨(history_read_limit [create_checkin 7 20000 32400 1 5, create_checkin 7 20001 30000 2 6]
      7).1,
    (history_read_limit [create_checkin 7 20000 32400 1 5, create_checkin 7 20001 30000 2 6]
      7).2.1⟩

end Kistr
